import Mathlib

/-!
# Verification of the GameTrack backend (`api.py`)

A shallow embedding, in Lean 4, of the data model and the operations of the
GameTrack Flask backend (`api.py`): the in-memory TTL cache, the dataframe
record normalizer `safe_records_from_df`, the `/api/leaders/<stat>` allow-list
gate, the team-schedule classification routine, and the try/except fallback
skeleton of every endpoint.  Python `time.time()` values are modelled as `ℚ`;
Python `datetime` values are modelled as `ℤ` timestamps (an order embedding);
machine floats carry no overflow concern here so numbers are `ℚ`.

The file is organised as definitions first (the embedding), then theorems
(the claims about the backend and their supporting lemmas).
-/

namespace GameTrack

/-! ## The in-memory cache (`_CACHE`, `cache_get`, `cache_set`)

The Python `_CACHE` is a dict from string keys to `(expiry, value)` pairs.
We embed it as a function from keys to an optional pair.  `cache_get`
returns `none` exactly when the key is absent or `time.time() > expiry`;
the lazy deletion performed by the Python code on an expired key does not
change any `cache_get` result (expiry is absolute), so the embedding of
`cache_get` returns only the value.  The current time is passed explicitly. -/

def Cache (V : Type) : Type := String → Option (ℚ × V)

/-- Embeds `cache_get` (api.py lines 64-73): absent key gives `None`;
an entry whose expiry lies strictly in the past gives `None` (and is
deleted); otherwise the stored value is returned. -/
def cache_get {V : Type} (now : ℚ) (c : Cache V) (key : String) : Option V :=
  match c key with
  | Option.none => Option.none
  | some (expiry, val) => if expiry < now then Option.none else some val

/-- Embeds `cache_set` (api.py lines 75-76): stores the value with absolute
expiry `now + ttl`. -/
def cache_set {V : Type} (now : ℚ) (c : Cache V) (key : String) (val : V)
    (ttl : ℚ) : Cache V :=
  fun k => if k = key then some (now + ttl, val) else c k

/-- The cache with no entries. -/
def cacheEmpty {V : Type} : Cache V := fun _ => Option.none

/-! ## The normalizer (`safe_records_from_df`, api.py lines 79-104)

A pandas `DataFrame` is embedded as a list of named, dtype-tagged columns
together with a row count.  Cell values are embedded by `PyVal`: `nan`
covers both float NaN and `None`/`NaT` missing markers wherever pandas
treats them as na; `posInf`/`negInf` are the float infinities; `dt` is a
native datetime carried as an integer timestamp (an order embedding of
datetimes), and `isoformat` is its (injective) ISO-8601 rendering. -/

inductive PyVal where
  | nan
  | posInf
  | negInf
  | num (q : ℚ)
  | str (s : String)
  | null
  | dt (t : ℤ)
deriving DecidableEq, Repr

/-- Models `datetime.isoformat`: an injective rendering of a timestamp. -/
def isoformat (t : ℤ) : String := "iso:" ++ toString t

inductive Dtype where
  | numeric
  | object
  | datetime
deriving DecidableEq, Repr

structure Col where
  name : String
  dtype : Dtype
  cells : List PyVal
deriving DecidableEq, Repr

structure DF where
  cols : List Col
  nrows : ℕ
deriving DecidableEq, Repr

/-- A record as produced by `df.to_dict(orient='records')`: an association
list from column name to cell value (dict insertion order = column order). -/
abbrev Record := List (String × PyVal)

/-- The argument of `safe_records_from_df`: Python `None`, an
already-materialised list of records, or a dataframe. -/
inductive DFInput where
  | pynone
  | list (rs : List Record)
  | df (d : DF)
deriving DecidableEq, Repr

/-- `df[col].fillna(0)` applied to the columns selected by
`select_dtypes(include='number')`: in a numeric column the only na marker
is NaN, which becomes `0`; every other cell (including `±inf`) is kept. -/
def fill_numeric (c : Col) : Col :=
  if c.dtype = Dtype.numeric then
    { c with cells := c.cells.map (fun x => if x = PyVal.nan then PyVal.num 0 else x) }
  else c

/-- `df[col].fillna("")` applied to the columns selected by
`select_dtypes(include='object')`: NaN and `None` cells become `""`. -/
def fill_object (c : Col) : Col :=
  if c.dtype = Dtype.object then
    { c with cells := c.cells.map (fun x =>
        if x = PyVal.nan ∨ x = PyVal.null then PyVal.str "" else x) }
  else c

/-- The datetime conversion loop (api.py lines 100-102): on a column for
which `is_datetime64_any_dtype` holds, `v.isoformat() if not pd.isna(v)
else None` — a datetime cell becomes its ISO string, an na cell becomes
`None`. -/
def convert_datetime (c : Col) : Col :=
  if c.dtype = Dtype.datetime then
    { c with cells := c.cells.map (fun x =>
        match x with
        | PyVal.dt t => PyVal.str (isoformat t)
        | _ => PyVal.null) }
  else c

/-- `df.loc[:, ~df.columns.duplicated()]`: drop every column whose name
occurred earlier, keeping the first occurrence (`seen` is the set of names
already kept). -/
def dedupColsAux (seen : List String) : List Col → List Col
  | [] => []
  | c :: cs =>
    if c.name ∈ seen then dedupColsAux seen cs
    else c :: dedupColsAux (c.name :: seen) cs

def dedupCols (l : List Col) : List Col := dedupColsAux [] l

/-- `df.to_dict(orient='records')`: one record per row, one key per column
in column order. -/
def toRecords (cols : List Col) (nrows : ℕ) : List Record :=
  (List.range nrows).map (fun i => cols.map (fun c => (c.name, c.cells.getD i PyVal.null)))

/-- Embeds `safe_records_from_df` (api.py lines 79-104): `None` gives `[]`,
a list is returned unchanged, an empty dataframe gives `[]`, and otherwise
the numeric fillna loop, the object fillna loop, the datetime conversion
loop, the duplicate-column drop and `to_dict` run in that order. -/
def safe_records_from_df : DFInput → List Record
  | DFInput.pynone => []
  | DFInput.list rs => rs
  | DFInput.df d =>
    if d.nrows = 0 then []
    else
      let cols1 := d.cols.map fill_numeric
      let cols2 := cols1.map fill_object
      let cols3 := cols2.map convert_datetime
      toRecords (dedupCols cols3) d.nrows

/-- Accurate-dtype well-formedness of a dataframe: every column has one
cell per row, a numeric column holds only floats (numbers, NaN, `±inf`),
an object column holds only strings, numbers and na markers, and a
datetime column holds only datetimes and NaT. -/
def cellMatches (dt : Dtype) : PyVal → Bool
  | PyVal.nan => true
  | PyVal.null => dt = Dtype.object
  | PyVal.num _ => dt = Dtype.numeric ∨ dt = Dtype.object
  | PyVal.posInf => dt = Dtype.numeric
  | PyVal.negInf => dt = Dtype.numeric
  | PyVal.str _ => dt = Dtype.object
  | PyVal.dt _ => dt = Dtype.datetime

def Wf (d : DF) : Prop :=
  ∀ c ∈ d.cols, c.cells.length = d.nrows ∧ ∀ x ∈ c.cells, cellMatches c.dtype x = true

instance (d : DF) : Decidable (Wf d) := by
  unfold Wf; infer_instance

/-- The per-cell transform stated by the amended claim C4 (a reference
definition following the amended words, to be compared with the source
pipeline): in a numeric field NaN/missing becomes `0` and `±Infinity` is
left unchanged; in a text field NaN/missing becomes `""`; in a
datetime-typed field a datetime becomes its ISO string and a missing value
becomes null. -/
def specFillCell (dt : Dtype) : PyVal → PyVal := fun x =>
  match dt with
  | Dtype.numeric => if x = PyVal.nan then PyVal.num 0 else x
  | Dtype.object => if x = PyVal.nan ∨ x = PyVal.null then PyVal.str "" else x
  | Dtype.datetime =>
    match x with
    | PyVal.dt t => PyVal.str (isoformat t)
    | _ => PyVal.null

/-- The normalizer as described by the amended claim C4: apply
`specFillCell` to every cell, drop duplicate columns, emit records. -/
def specNormalize (d : DF) : List Record :=
  if d.nrows = 0 then []
  else
    toRecords
      (dedupCols (d.cols.map (fun c => { c with cells := c.cells.map (specFillCell c.dtype) })))
      d.nrows

/-- A one-cell numeric dataframe holding `+Infinity` (counterexample input
for claim C4). -/
def infDF : DF :=
  { cols := [{ name := "x", dtype := Dtype.numeric, cells := [PyVal.posInf] }], nrows := 1 }

/-- A concrete well-formed dataframe exercising all three dtypes and a
duplicate column name, used as the witness input for the amended C5
theorem. -/
def wfDF : DF :=
  { cols :=
      [ { name := "a", dtype := Dtype.numeric, cells := [PyVal.nan] },
        { name := "b", dtype := Dtype.object, cells := [PyVal.null] },
        { name := "c", dtype := Dtype.datetime, cells := [PyVal.dt 3] },
        { name := "a", dtype := Dtype.numeric, cells := [PyVal.num 7] } ],
    nrows := 1 }

/-! ## Team schedule classification (`api_team_schedule`, api.py lines 394-504)

A game object from the CDN league schedule feed, carrying the fields the
handler reads.  Python datetimes are order-embedded into `ℤ`; `gameTime`
records the outcome of `get_game_time` on the game's `gameEt` string:
`some t` when one of the two parse attempts succeeds, `none` when the
field is absent/empty or both parses fail. -/

structure Game where
  gameId : String
  gameTime : Option ℤ
  statusText : String
  gameDateEst : Option String
  homeTeamId : ℤ
  awayTeamId : ℤ
  homeTricode : String
  awayTricode : String
  homeScore : ℤ
  awayScore : ℤ
deriving DecidableEq, Repr

/-- Embeds the `get_game_time` helper (api.py lines 427-438). -/
def get_game_time (g : Game) : Option ℤ := g.gameTime

/-- The sort key `get_game_time(g) or datetime.min`: an unparseable time
sorts below every real timestamp (`datetime.min`), embedded as `⊥`. -/
def timeKey : Option ℤ → WithBot ℤ
  | Option.none => ⊥
  | some t => (t : WithBot ℤ)

def sortKey (g : Game) : WithBot ℤ := timeKey (get_game_time g)

def gameLE (a b : Game) : Bool := decide (sortKey a ≤ sortKey b)

/-- `team_games.sort(key=lambda g: get_game_time(g) or datetime.min)`
(api.py line 441), a stable ascending sort. -/
def sortGames (games : List Game) : List Game := games.mergeSort gameLE

/-- One iteration of the classification loop (api.py lines 448-457):
the `if`/`elif`/`elif` chain appending to `upcoming_games_raw` (first
component) or `recent_games_raw` (second component). -/
def classifyStep (today : ℤ) (acc : List Game × List Game) (g : Game) :
    List Game × List Game :=
  let game_time := get_game_time g
  if game_time.isSome ∧ today < game_time.getD 0 ∧ g.statusText ≠ "Final" then
    (acc.1 ++ [g], acc.2)
  else if g.statusText = "Final" then
    (acc.1, acc.2 ++ [g])
  else if game_time.isNone ∧ g.statusText ≠ "Final" then
    (acc.1 ++ [g], acc.2)
  else acc

def splitGames (today : ℤ) (games : List Game) : List Game × List Game :=
  games.foldl (classifyStep today) ([], [])

/-- The condition under which the loop sends a game to `upcoming_games_raw`:
either branch 1 (parseable future time, non-Final) or branch 3 (no
parseable time, non-Final). -/
def goesUpcoming (today : ℤ) (g : Game) : Bool :=
  ((get_game_time g).isSome && decide (today < (get_game_time g).getD 0) &&
      !(g.statusText == "Final"))
    || ((get_game_time g).isNone && !(g.statusText == "Final"))

/-- The condition under which the loop sends a game to `recent_games_raw`:
branch 2 (status `"Final"`; branch 1 cannot fire on a Final game). -/
def goesRecent (g : Game) : Bool := g.statusText == "Final"

/-- The score the handler attributes to the requested team
(api.py line 477). -/
def teamScore (team_id : ℤ) (g : Game) : ℤ :=
  if g.homeTeamId = team_id then g.homeScore else g.awayScore

/-- The score the handler attributes to the opponent (api.py line 478). -/
def oppScore (team_id : ℤ) (g : Game) : ℤ :=
  if g.homeTeamId = team_id then g.awayScore else g.homeScore

/-- The record built by `format_game` (api.py lines 460-482).
`GAME_DATETIME` carries the parsed datetime; `jsonify` serializes it as
its ISO string, or null when absent. -/
structure GameData where
  GAME_ID : String
  GAME_DATETIME : Option ℤ
  GAME_DATE_STR : String
  MATCHUP : String
  WL : Option String
  PTS : Option ℤ
  OPP_PTS : Option ℤ
deriving DecidableEq, Repr

def format_game (team_id : ℤ) (g : Game) (is_recent : Bool) : GameData :=
  { GAME_ID := g.gameId
    GAME_DATETIME := get_game_time g
    GAME_DATE_STR := g.gameDateEst.getD "Date TBD"
    MATCHUP := g.awayTricode ++ " @ " ++ g.homeTricode
    WL := if is_recent then
        some (if teamScore team_id g > oppScore team_id g then "W" else "L")
      else Option.none
    PTS := if is_recent then some (teamScore team_id g) else Option.none
    OPP_PTS := if is_recent then some (oppScore team_id g) else Option.none }

/-- The schedule computation on the games found for the team (api.py
lines 441-492): sort ascending, classify, take the last 5 recents (most
recent first) and the first 5 upcomings.  Returns
`(upcoming_games, recent_games)`. -/
def api_team_schedule_core (today team_id : ℤ) (team_games : List Game) :
    List GameData × List GameData :=
  let sorted := sortGames team_games
  let split := splitGames today sorted
  let recent_games :=
    ((split.2.drop (split.2.length - 5)).map (fun g => format_game team_id g true)).reverse
  let upcoming_games := (split.1.take 5).map (fun g => format_game team_id g false)
  (upcoming_games, recent_games)

/-- A concrete finished game (status `"Final"`, past timestamp). -/
def finalGame : Game :=
  { gameId := "0012300001", gameTime := some 100, statusText := "Final",
    gameDateEst := some "2025-04-08T00:00:00Z", homeTeamId := 1, awayTeamId := 2,
    homeTricode := "AAA", awayTricode := "BBB", homeScore := 100, awayScore := 90 }

/-- A concrete in-progress game (past timestamp, status not `"Final"`). -/
def liveGame : Game :=
  { gameId := "0012300002", gameTime := some 100, statusText := "Q3",
    gameDateEst := some "2025-04-08T00:00:00Z", homeTeamId := 1, awayTeamId := 2,
    homeTricode := "AAA", awayTricode := "BBB", homeScore := 55, awayScore := 60 }

/-! ## `/api/teams` (api.py lines 138-170)

Provider team dicts carry one of several id keys; Python's truthiness-based
`t.get('id') or t.get('teamId') or t.get('TEAM_ID')` chain skips both
absent keys and a zero id. -/

structure TeamIn where
  id : Option ℤ
  teamId : Option ℤ
  TEAM_ID : Option ℤ
  full_name : String
  abbreviation : String
deriving DecidableEq, Repr

structure TeamOut where
  id : Option ℤ
  teamId : Option ℤ
  TEAM_ID : Option ℤ
  full_name : String
  abbreviation : String
  logoUrl : String
deriving DecidableEq, Repr

/-- Python `a or b` on optional integers: `a` unless it is `None` or `0`. -/
def orTruthyInt (a b : Option ℤ) : Option ℤ :=
  match a with
  | some n => if n = 0 then b else some n
  | Option.none => b

def pickTid (t : TeamIn) : Option ℤ := orTruthyInt t.id (orTruthyInt t.teamId t.TEAM_ID)

def cdnLogoUrl (n : ℤ) : String :=
  "https://cdn.nba.com/logos/nba/" ++ toString n ++ "/global/L/logo.svg"

/-- The per-team loop body (api.py lines 149-154): a truthy id yields the
CDN logo URL, otherwise the static fallback logo. -/
def addLogo (t : TeamIn) : TeamOut :=
  { id := t.id, teamId := t.teamId, TEAM_ID := t.TEAM_ID,
    full_name := t.full_name, abbreviation := t.abbreviation,
    logoUrl :=
      match pickTid t with
      | some n => if n ≠ 0 then cdnLogoUrl n else "/static/logo.png"
      | Option.none => "/static/logo.png" }

/-- The literal two-team fallback list (api.py lines 157-160 and 165-168:
the same literal appears in the empty-list branch and the except branch). -/
def sampleTeams : List TeamOut :=
  [ { id := some 1610612747, teamId := Option.none, TEAM_ID := Option.none,
      full_name := "Los Angeles Lakers", abbreviation := "LAL",
      logoUrl := "/static/logo.png" },
    { id := some 1610612744, teamId := Option.none, TEAM_ID := Option.none,
      full_name := "Golden State Warriors", abbreviation := "GSW",
      logoUrl := "/static/logo.png" } ]

/-- Embeds `api_teams` (api.py lines 138-170).  `getTeams` is the outcome
of `teams_static.get_teams()`, consulted only when the provider integration
is available; a Python exception is `Except.error`.  The `if cached:`
truthiness test treats an empty cached list as a miss.  Returns the
response together with the updated cache. -/
def api_teams (now : ℚ) (c : Cache (List TeamOut)) (nba : Bool)
    (getTeams : Except Unit (List TeamIn)) :
    (ℕ × List TeamOut) × Cache (List TeamOut) :=
  let cached := cache_get now c "teams"
  if (cached.getD []).isEmpty = false then ((200, cached.getD []), c)
  else
    match (if nba then getTeams else Except.ok []) with
    | Except.ok ts =>
      let all_teams := ts.map addLogo
      let all_teams2 := if all_teams.isEmpty then sampleTeams else all_teams
      ((200, all_teams2), cache_set now c "teams" all_teams2 3600)
    | Except.error _ =>
      ((200, sampleTeams), cache_set now c "teams" sampleTeams 3600)

/-! ## JSON values

Response bodies that the claims treat opaquely are embedded as `Json`
values; numbers are `ℚ` (floats never overflow or round in the literals
involved). -/

inductive Json where
  | null
  | bool (b : Bool)
  | num (q : ℚ)
  | str (s : String)
  | arr (xs : List Json)
  | obj (kvs : List (String × Json))

/-- Python truthiness of a JSON value (`if cached:`): null, `False`, `0`,
`""`, `[]` and `{}` are falsy. -/
def pyTruthy : Json → Bool
  | Json.null => false
  | Json.bool b => b
  | Json.num q => q ≠ 0
  | Json.str s => s ≠ ""
  | Json.arr xs => !xs.isEmpty
  | Json.obj kvs => !kvs.isEmpty

/-! ## `/api/leaders/<stat_category>` (api.py lines 338-365)

A dataframe row is an association list of JSON fields; provider frames
have uniform columns, so the frame's column list is read off the first
row. -/

abbrev JRec := List (String × Json)

def lookupField (r : JRec) (k : String) : Option Json :=
  (r.find? (fun kv => kv.1 == k)).map Prod.snd

def dfColumns (df : List JRec) : List String := (df.headD []).map Prod.fst

def hasCol (df : List JRec) (c : String) : Bool := (dfColumns df).contains c

/-- `df.rename(columns={old: new})`. -/
def renameCol (old new : String) (df : List JRec) : List JRec :=
  df.map (fun r => r.map (fun kv => if kv.1 == old then (new, kv.2) else kv))

/-- The sort key of `df.sort_values(by=stat, ...)`: the row's numeric value
in the stat column. -/
def statVal (stat : String) (r : JRec) : ℚ :=
  match lookupField r stat with
  | some (Json.num q) => q
  | _ => 0

/-- `df.sort_values(by=stat, ascending=False)`. -/
def sortByStatDesc (stat : String) (df : List JRec) : List JRec :=
  df.mergeSort (fun a b => decide (statVal stat b ≤ statVal stat a))

/-- `pd.merge(df_sorted, teams_df, left_on='TEAM_ID', right_on='id',
how='left')` under the provider guarantee that team ids are unique keys:
each row gains the matching team's columns, or — for an unmatched row —
na fields that the later `safe_records_from_df` pass renders as `0`/`""`
(folded in here). -/
def mergeTeam (teams : List TeamIn) (r : JRec) : JRec :=
  match teams.find? (fun t =>
      match lookupField r "TEAM_ID", t.id with
      | some (Json.num q), some n => q == (n : ℚ)
      | _, _ => false) with
  | some t =>
    r ++ [("id", match t.id with | some n => Json.num (n : ℚ) | Option.none => Json.null),
          ("full_name", Json.str t.full_name),
          ("abbreviation", Json.str t.abbreviation)]
  | Option.none =>
    r ++ [("id", Json.num 0), ("full_name", Json.str ""), ("abbreviation", Json.str "")]

/-- `merged.loc[:, ~merged.columns.duplicated()]` at record level: keep the
first occurrence of each key. -/
def dedupKeysAux (seen : List String) : JRec → JRec
  | [] => []
  | kv :: kvs =>
    if kv.1 ∈ seen then dedupKeysAux seen kvs
    else kv :: dedupKeysAux (kv.1 :: seen) kvs

def dedupKeys (r : JRec) : JRec := dedupKeysAux [] r

/-- Python `str.upper()` (`stat_category.upper()`, ASCII): uppercase every
character. -/
def pyUpper (s : String) : String := String.mk (s.data.map Char.toUpper)

/-- The allow-list (api.py line 341). -/
def allowedStats : List String :=
  ["PTS", "AST", "REB", "BLK", "STL", "FGM", "FGA", "FG3M", "FG3A", "FTM",
   "FTA", "FG_PCT", "FG3_PCT", "FT_PCT"]

/-- The literal sample of the except branch (api.py lines 361-364). -/
def sampleLeadersFull : Json :=
  Json.arr
    [ Json.obj [("PLAYER", Json.str "L. James"), ("TEAM", Json.str "LAL"),
                ("PTS", Json.num 30.1), ("PERSON_ID", Json.num 2544)],
      Json.obj [("PLAYER", Json.str "S. Curry"), ("TEAM", Json.str "GSW"),
                ("PTS", Json.num 29.4), ("PERSON_ID", Json.num 201939)] ]

/-- Embeds `api_leaders_full` (api.py lines 338-365): uppercase the path
segment, reject it with a 400 unless it is in the allow-list, then fetch
the league player stats (`fetched`; `raise` when the provider integration
is absent), case-insensitively rename the stat column if needed, sort
descending and keep the top 25, left-join the provider team table, drop
duplicate columns, and return the records; any failure yields the literal
sample. -/
def api_leaders_full (stat_category : String) (nba : Bool)
    (fetched : Except Unit (List JRec)) (teams : List TeamIn) : ℕ × Json :=
  let stat := pyUpper stat_category
  if stat ∈ allowedStats then
    match (if nba then fetched else Except.error ()) with
    | Except.ok df =>
      let df1 :=
        if hasCol df stat then df
        else
          match (dfColumns df).find? (fun c => c.toLower == stat.toLower) with
          | some m => renameCol m stat df
          | Option.none => df
      let df_sorted :=
        if hasCol df1 stat then (sortByStatDesc stat df1).take 25 else df1.take 25
      let merged := if teams.isEmpty then df_sorted else df_sorted.map (mergeTeam teams)
      (200, Json.arr (merged.map (fun r => Json.obj (dedupKeys r))))
    | Except.error _ => (200, sampleLeadersFull)
  else (400, Json.obj [("error", Json.str "invalid stat")])

/-! ## Endpoint try/except skeletons and their literal samples

For claim C7 each remaining handler is embedded at the level of its
try/except boundary: `live : Except Unit Json` is the outcome of the whole
`try` block (fetch plus transform — an exception anywhere inside lands in
`Except.error`), and the handler is a total function, so no exception can
propagate to the caller.  Each sample below transcribes the corresponding
literal from api.py. -/

/-- The sample of `api_standings` (api.py lines 212-221). -/
def sampleStandings : Json :=
  Json.obj
    [ ("east", Json.arr
        [ Json.obj [("TeamName", Json.str "Boston Celtics"), ("WINS", Json.num 50),
                    ("LOSSES", Json.num 22), ("GamesBack", Json.num 0)],
          Json.obj [("TeamName", Json.str "Milwaukee Bucks"), ("WINS", Json.num 45),
                    ("LOSSES", Json.num 27), ("GamesBack", Json.num 5)] ]),
      ("west", Json.arr
        [ Json.obj [("TeamName", Json.str "Phoenix Suns"), ("WINS", Json.num 48),
                    ("LOSSES", Json.num 24), ("GamesBack", Json.num 0)],
          Json.obj [("TeamName", Json.str "Denver Nuggets"), ("WINS", Json.num 44),
                    ("LOSSES", Json.num 28), ("GamesBack", Json.num 4)] ]) ]

/-- Embeds `api_standings` (api.py lines 175-223) at the try/except
boundary, with its cache check (`if cached:` truthiness) and `ttl=30`. -/
def api_standings (now : ℚ) (c : Cache Json) (live : Except Unit Json) :
    (ℕ × Json) × Cache Json :=
  let cached := cache_get now c "standings"
  if pyTruthy (cached.getD Json.null) then ((200, cached.getD Json.null), c)
  else
    match live with
    | Except.ok out => ((200, out), cache_set now c "standings" out 30)
    | Except.error _ =>
      ((200, sampleStandings), cache_set now c "standings" sampleStandings 30)

/-- The sample of `api_scoreboard` (api.py lines 278-297); its
`startTimeUTC` is `datetime.utcnow().isoformat()`, passed in as `nowIso`. -/
def sampleScoreboard (nowIso : String) : Json :=
  Json.obj
    [ ("games", Json.arr
        [ Json.obj
            [ ("gameId", Json.str "sample-1"),
              ("gameStatus", Json.str "Final"),
              ("homeTeamId", Json.num 1610612747),
              ("awayTeamId", Json.num 1610612750),
              ("homeTeam", Json.str "Los Angeles Lakers"),
              ("awayTeam", Json.str "Golden State Warriors"),
              ("homeAbbr", Json.str "LAL"),
              ("awayAbbr", Json.str "GSW"),
              ("homeLogo", Json.str "https://cdn.nba.com/logos/nba/1610612747/global/L/logo.svg"),
              ("awayLogo", Json.str "https://cdn.nba.com/logos/nba/1610612744/global/L/logo.svg"),
              ("homeScore", Json.num 112),
              ("awayScore", Json.num 108),
              ("startTimeUTC", Json.str nowIso),
              ("arena", Json.str "Staples Center") ] ]) ]

/-- Embeds `api_scoreboard` (api.py lines 228-299) at the try/except
boundary, with its cache check and `ttl=15`. -/
def api_scoreboard (now : ℚ) (c : Cache Json) (nowIso : String)
    (live : Except Unit Json) : (ℕ × Json) × Cache Json :=
  let cached := cache_get now c "scoreboard"
  if pyTruthy (cached.getD Json.null) then ((200, cached.getD Json.null), c)
  else
    match live with
    | Except.ok out => ((200, out), cache_set now c "scoreboard" out 15)
    | Except.error _ =>
      ((200, sampleScoreboard nowIso), cache_set now c "scoreboard" (sampleScoreboard nowIso) 15)

/-- The sample of `api_leaders_home` (api.py lines 327-331). -/
def sampleLeadersHome : Json :=
  Json.obj
    [ ("PTS", Json.arr
        [ Json.obj [("PLAYER", Json.str "L. James"), ("TEAM", Json.str "LAL"),
                    ("PTS", Json.num 30.1), ("PERSON_ID", Json.num 2544)],
          Json.obj [("PLAYER", Json.str "S. Curry"), ("TEAM", Json.str "GSW"),
                    ("PTS", Json.num 29.4), ("PERSON_ID", Json.num 201939)] ]),
      ("REB", Json.arr
        [ Json.obj [("PLAYER", Json.str "N. Jokic"), ("TEAM", Json.str "DEN"),
                    ("REB", Json.num 11.2), ("PERSON_ID", Json.num 203999)],
          Json.obj [("PLAYER", Json.str "G. Antetokounmpo"), ("TEAM", Json.str "MIL"),
                    ("REB", Json.num 10.8), ("PERSON_ID", Json.num 203507)] ]),
      ("AST", Json.arr
        [ Json.obj [("PLAYER", Json.str "L. Doncic"), ("TEAM", Json.str "DAL"),
                    ("AST", Json.num 9.8), ("PERSON_ID", Json.num 1629029)],
          Json.obj [("PLAYER", Json.str "C. Paul"), ("TEAM", Json.str "PHX"),
                    ("AST", Json.num 8.9), ("PERSON_ID", Json.num 101108)] ]) ]

/-- Embeds `api_leaders_home` (api.py lines 304-333) at the try/except
boundary, with its cache check and `ttl=30`. -/
def api_leaders_home (now : ℚ) (c : Cache Json) (live : Except Unit Json) :
    (ℕ × Json) × Cache Json :=
  let cached := cache_get now c "leaders_home"
  if pyTruthy (cached.getD Json.null) then ((200, cached.getD Json.null), c)
  else
    match live with
    | Except.ok out => ((200, out), cache_set now c "leaders_home" out 30)
    | Except.error _ =>
      ((200, sampleLeadersHome), cache_set now c "leaders_home" sampleLeadersHome 30)

/-- The sample of `api_team_roster` (api.py lines 382-385). -/
def sampleRoster : Json :=
  Json.arr
    [ Json.obj [("PLAYER_ID", Json.num 201939), ("PLAYER", Json.str "Stephen Curry"),
                ("NUM", Json.str "30"), ("POSITION", Json.str "G"),
                ("AGE", Json.num 36), ("HEIGHT", Json.str "6-2"),
                ("WEIGHT", Json.str "185"), ("SCHOOL", Json.str "Davidson")],
      Json.obj [("PLAYER_ID", Json.num 2544), ("PLAYER", Json.str "LeBron James"),
                ("NUM", Json.str "23"), ("POSITION", Json.str "F"),
                ("AGE", Json.num 39), ("HEIGHT", Json.str "6-9"),
                ("WEIGHT", Json.str "250"), ("SCHOOL", Json.str "St. Vincent-St. Mary")] ]

/-- Embeds `api_team_roster` (api.py lines 370-386) at the try/except
boundary (no cache). -/
def api_team_roster (live : Except Unit Json) : ℕ × Json :=
  match live with
  | Except.ok v => (200, v)
  | Except.error _ => (200, sampleRoster)

/-- The sample of `api_team_schedule` (api.py lines 496-503). -/
def sampleSchedule : Json :=
  Json.obj
    [ ("upcoming", Json.arr
        [ Json.obj [("GAME_ID", Json.str "1001"),
                    ("GAME_DATETIME", Json.str "2025-04-10T19:30:00"),
                    ("MATCHUP", Json.str "LAL vs GSW"), ("WL", Json.null)] ]),
      ("recent", Json.arr
        [ Json.obj [("GAME_ID", Json.str "999"),
                    ("GAME_DATETIME", Json.str "2025-04-08T19:30:00"),
                    ("MATCHUP", Json.str "LAL @ BOS"), ("WL", Json.str "L"),
                    ("PTS", Json.num 100), ("OPP_PTS", Json.num 110)] ]) ]

/-- Embeds `api_team_schedule` (api.py lines 394-504) at the try/except
boundary: the try block (CDN fetch with its in-try cache, team filter and
`api_team_schedule_core`) is `live`; the except branch returns the literal
sample. -/
def api_team_schedule (live : Except Unit Json) : ℕ × Json :=
  match live with
  | Except.ok v => (200, v)
  | Except.error _ => (200, sampleSchedule)

/-- The sample of `api_player_profile` (api.py lines 531-547), which embeds
the requested `player_id`. -/
def sampleProfile (player_id : ℤ) : Json :=
  Json.obj
    [ ("info", Json.arr
        [ Json.obj
            [ ("PERSON_ID", Json.num (player_id : ℚ)),
              ("DISPLAY_FIRST_LAST", Json.str "Sample Player"),
              ("TEAM_NAME", Json.str "Sample Team"),
              ("JERSEY", Json.str "0"),
              ("POSITION", Json.str "G"),
              ("HEIGHT", Json.str "6-5"),
              ("WEIGHT", Json.str "200"),
              ("AGE", Json.num 25),
              ("PTS", Json.num 20.1),
              ("REB", Json.num 5.2),
              ("AST", Json.num 6.3) ] ]) ]

/-- Embeds `api_player_profile` (api.py lines 509-548) at the try/except
boundary. -/
def api_player_profile (player_id : ℤ) (live : Except Unit Json) : ℕ × Json :=
  match live with
  | Except.ok v => (200, v)
  | Except.error _ => (200, sampleProfile player_id)

/-- The sample of `api_player_gamelog` (api.py lines 565-568). -/
def sampleGamelog : Json :=
  Json.arr
    [ Json.obj [("GAME_DATE", Json.str "2025-11-01"), ("MATCHUP", Json.str "LAL vs GSW"),
                ("PTS", Json.num 28), ("REB", Json.num 6), ("AST", Json.num 7),
                ("MIN", Json.str "35:00")],
      Json.obj [("GAME_DATE", Json.str "2025-10-29"), ("MATCHUP", Json.str "LAL @ BOS"),
                ("PTS", Json.num 14), ("REB", Json.num 4), ("AST", Json.num 3),
                ("MIN", Json.str "28:12")] ]

/-- Embeds `api_player_gamelog` (api.py lines 553-569) at the try/except
boundary. -/
def api_player_gamelog (live : Except Unit Json) : ℕ × Json :=
  match live with
  | Except.ok v => (200, v)
  | Except.error _ => (200, sampleGamelog)

/-- The sample of `api_game_boxscore` (api.py lines 691-748). -/
def sampleBoxscore : Json :=
  Json.obj
    [ ("playerStats", Json.arr
        [ Json.obj
            [ ("personId", Json.num 201939),
              ("playerName", Json.str "Stephen Curry"),
              ("teamTricode", Json.str "GSW"),
              ("minutes", Json.str "36:12"),
              ("points", Json.num 34),
              ("reboundsTotal", Json.num 5),
              ("assists", Json.num 8),
              ("steals", Json.num 2),
              ("blocks", Json.num 0),
              ("fieldGoalsMade", Json.num 12),
              ("fieldGoalsAttempted", Json.num 23),
              ("threePointersMade", Json.num 7),
              ("threePointersAttempted", Json.num 13),
              ("freeThrowsMade", Json.num 3),
              ("freeThrowsAttempted", Json.num 3),
              ("turnovers", Json.num 2),
              ("plusMinusPoints", Json.num 10),
              ("playerImageUrl",
                Json.str "https://cdn.nba.com/headshots/nba/latest/1040x760/201939.png") ] ]),
      ("teamStats", Json.arr
        [ Json.obj
            [ ("teamTricode", Json.str "GSW"),
              ("teamName", Json.str "Golden State Warriors"),
              ("points", Json.num 108),
              ("reboundsTotal", Json.num 44),
              ("assists", Json.num 25),
              ("steals", Json.num 6),
              ("blocks", Json.num 4),
              ("fieldGoalsMade", Json.num 39),
              ("fieldGoalsAttempted", Json.num 92),
              ("threePointersMade", Json.num 14),
              ("threePointersAttempted", Json.num 39),
              ("freeThrowsMade", Json.num 16),
              ("freeThrowsAttempted", Json.num 21),
              ("turnovers", Json.num 12) ],
          Json.obj
            [ ("teamTricode", Json.str "LAL"),
              ("teamName", Json.str "Los Angeles Lakers"),
              ("points", Json.num 112),
              ("reboundsTotal", Json.num 48),
              ("assists", Json.num 22),
              ("steals", Json.num 5),
              ("blocks", Json.num 6),
              ("fieldGoalsMade", Json.num 41),
              ("fieldGoalsAttempted", Json.num 90),
              ("threePointersMade", Json.num 10),
              ("threePointersAttempted", Json.num 30),
              ("freeThrowsMade", Json.num 20),
              ("freeThrowsAttempted", Json.num 26),
              ("turnovers", Json.num 14) ] ]) ]

/-- Embeds `api_game_boxscore` (api.py lines 642-749) at the try/except
boundary. -/
def api_game_boxscore (live : Except Unit Json) : ℕ × Json :=
  match live with
  | Except.ok v => (200, v)
  | Except.error _ => (200, sampleBoxscore)

/-- Embeds `api_player_accolades` (api.py lines 753-767) at the try/except
boundary; its except branch returns `{"accolades": []}`. -/
def api_player_accolades (live : Except Unit Json) : ℕ × Json :=
  match live with
  | Except.ok v => (200, v)
  | Except.error _ => (200, Json.obj [("accolades", Json.arr [])])

/-! ## Supporting lemmas -/

/-- The source's three per-column passes compose into the single per-cell
transform of the amended claim C4. -/
theorem pipeline_col (c : Col) :
    convert_datetime (fill_object (fill_numeric c)) =
      { c with cells := c.cells.map (specFillCell c.dtype) } := by
  obtain ⟨n, dt, cells⟩ := c
  cases dt <;> rfl

/-- The dataframe path of `safe_records_from_df` equals the per-cell
reference normalizer. -/
theorem safe_records_df_eq_specNormalize (d : DF) :
    safe_records_from_df (DFInput.df d) = specNormalize d := by
  unfold safe_records_from_df specNormalize
  by_cases h : d.nrows = 0
  · simp [h]
  · simp only [h, if_false]
    congr 2
    simp only [List.map_map]
    congr 1
    funext c
    exact pipeline_col c

theorem mem_dedupColsAux {c : Col} :
    ∀ (seen : List String) (l : List Col), c ∈ dedupColsAux seen l → c ∈ l := by
  intro seen l
  induction l generalizing seen with
  | nil => simp [dedupColsAux]
  | cons a as ih =>
    intro h
    simp only [dedupColsAux] at h
    by_cases ha : a.name ∈ seen
    · simp only [ha, if_true] at h
      exact List.mem_cons_of_mem _ (ih _ h)
    · simp only [ha, if_false, List.mem_cons] at h
      rcases h with h | h
      · exact h ▸ List.mem_cons_self _ _
      · exact List.mem_cons_of_mem _ (ih _ h)

theorem dedupColsAux_names (seen : List String) (l : List Col) :
    ((dedupColsAux seen l).map Col.name).Nodup ∧
      ∀ n ∈ (dedupColsAux seen l).map Col.name, n ∉ seen := by
  induction l generalizing seen with
  | nil => simp [dedupColsAux]
  | cons a as ih =>
    by_cases ha : a.name ∈ seen
    · simpa [dedupColsAux, ha] using ih seen
    · have ih' := ih (a.name :: seen)
      simp only [dedupColsAux, ha, if_false, List.map_cons, List.nodup_cons]
      refine ⟨⟨?_, ih'.1⟩, ?_⟩
      · intro hmem
        exact (ih'.2 _ hmem) (List.mem_cons_self _ _)
      · intro n hn
        rcases List.mem_cons.mp hn with rfl | hn'
        · exact ha
        · intro hns
          exact (ih'.2 _ hn') (List.mem_cons_of_mem _ hns)

/-- On a cell that matches its column's dtype, the per-cell transform never
produces NaN and never produces a native datetime. -/
theorem specFillCell_ok (dt : Dtype) (x : PyVal) (h : cellMatches dt x = true) :
    specFillCell dt x ≠ PyVal.nan ∧ ∀ t, specFillCell dt x ≠ PyVal.dt t := by
  cases dt <;> cases x <;> simp_all [cellMatches, specFillCell]

theorem splitGames_foldl (today : ℤ) (gs : List Game) :
    ∀ u r : List Game,
      gs.foldl (classifyStep today) (u, r) =
        (u ++ gs.filter (goesUpcoming today), r ++ gs.filter goesRecent) := by
  induction gs with
  | nil => intro u r; simp
  | cons g gs ih =>
    intro u r
    by_cases hf : g.statusText = "Final"
    · have hstep : classifyStep today (u, r) g = (u, r ++ [g]) := by
        simp [classifyStep, hf]
      simp only [List.foldl_cons, hstep, ih, List.filter_cons]
      simp [goesUpcoming, goesRecent, hf]
    · rcases hgt : get_game_time g with _ | t
      · have hstep : classifyStep today (u, r) g = (u ++ [g], r) := by
          simp [classifyStep, hgt, hf]
        simp only [List.foldl_cons, hstep, ih, List.filter_cons]
        simp [goesUpcoming, goesRecent, hgt, hf]
      · by_cases hlt : today < t
        · have hstep : classifyStep today (u, r) g = (u ++ [g], r) := by
            simp [classifyStep, hgt, hf, hlt]
          simp only [List.foldl_cons, hstep, ih, List.filter_cons]
          simp [goesUpcoming, goesRecent, hgt, hf, hlt]
        · have hstep : classifyStep today (u, r) g = (u, r) := by
            simp [classifyStep, hgt, hf, hlt]
          simp only [List.foldl_cons, hstep, ih, List.filter_cons]
          simp [goesUpcoming, goesRecent, hgt, hf, hlt]

/-- The classification loop filters the input: `upcoming_games_raw` holds
exactly the games satisfying branch 1 or branch 3, `recent_games_raw`
exactly the `"Final"` games, both in input order. -/
theorem splitGames_eq (today : ℤ) (gs : List Game) :
    splitGames today gs = (gs.filter (goesUpcoming today), gs.filter goesRecent) := by
  simpa using splitGames_foldl today gs [] []

theorem sortGames_sorted (games : List Game) :
    (sortGames games).Pairwise (fun a b => sortKey a ≤ sortKey b) := by
  have h := @List.sorted_mergeSort Game gameLE
    (fun a b c hab hbc => by
      simp only [gameLE, decide_eq_true_eq] at *
      exact le_trans hab hbc)
    (fun a b => by
      simp only [gameLE, Bool.or_eq_true, decide_eq_true_eq]
      exact le_total (sortKey a) (sortKey b))
    games
  exact h.imp (fun hab => by simpa [gameLE] using hab)

/-! ## Claim C3 -/

/-- C3 (counterexample): the claim says `cache_get` returns empty at any
time `t` with `t - t0 ≥ T`.  At the boundary `t - t0 = T` the code tests
`time.time() > expiry` strictly, so the value is still returned: setting
`"k" ↦ 42` at `t0 = 0` with `ttl = 30` and reading at `t = 30` gives
`some 42`, not `none`, even though `t - t0 ≥ T`. -/
theorem cache_ttl_boundary_counterexample :
    (30 : ℚ) - 0 ≥ 30 ∧
      cache_get 30 (cache_set 0 (cacheEmpty : Cache ℤ) "k" 42 30) "k" = some 42 := by
  refine ⟨by norm_num, ?_⟩
  simp [cache_get, cache_set, cacheEmpty]

/-- C3 (amended): after `cache_set(k, v, T)` at time `t0`, `cache_get(k)`
at any time `t` with `t - t0 ≤ T` returns `v` unchanged, and at any time
`t` with `t - t0 > T` returns empty (`None`). -/
theorem cache_ttl_amended {V : Type} (c : Cache V) (k : String) (v : V)
    (T t0 t : ℚ) :
    (t - t0 ≤ T → cache_get t (cache_set t0 c k v T) k = some v) ∧
    (t - t0 > T → cache_get t (cache_set t0 c k v T) k = Option.none) := by
  constructor
  · intro h
    have h' : ¬ (t0 + T < t) := by linarith
    simp [cache_get, cache_set, h']
  · intro h
    have h' : t0 + T < t := by linarith
    simp [cache_get, cache_set, h']

/-- C3 (witness for the amended theorem): at `t0 = 0`, `T = 30`, a read at
`t = 10` returns the stored value, and a read at `t = 31` returns empty. -/
theorem cache_ttl_amended_witness :
    cache_get 10 (cache_set 0 (cacheEmpty : Cache ℤ) "k" 5 30) "k" = some 5 ∧
      cache_get 31 (cache_set 0 (cacheEmpty : Cache ℤ) "k" 5 30) "k" = Option.none :=
  ⟨(cache_ttl_amended cacheEmpty "k" 5 30 0 10).1 (by norm_num),
   (cache_ttl_amended cacheEmpty "k" 5 30 0 31).2 (by norm_num)⟩

/-! ## Claim C4 -/

/-- C4 (counterexample): the claim says `+Infinity` is replaced by `0` in
numeric fields.  On a one-cell numeric dataframe holding `+Infinity`, the
normalizer returns the `+Infinity` value unchanged (pandas `fillna` does
not treat infinities as na), not `0`. -/
theorem normalizer_inf_counterexample :
    safe_records_from_df (DFInput.df infDF) = [[("x", PyVal.posInf)]] ∧
      PyVal.posInf ≠ PyVal.num 0 :=
  ⟨rfl, by decide⟩

/-- C4 (amended): for every input dataframe, NaN and missing values are
replaced by `0` in numeric fields and by the empty string in text fields,
datetimes become ISO strings or null, and `±Infinity` values are left
unchanged — i.e. the source pipeline equals the per-cell reference
normalizer `specNormalize`, which fixes `±Infinity`. -/
theorem normalizer_fill_amended (d : DF) :
    safe_records_from_df (DFInput.df d) = specNormalize d :=
  safe_records_df_eq_specNormalize d

/-! ## Claim C5 -/

/-- C5 (counterexample): the claim asserts the normalizer's output never
contains NaN.  A list input is itself returned as the output (the
`isinstance(df, list)` short-circuit), so the one-record list
`[{"x": NaN}]` is a normalizer output that does contain NaN. -/
theorem normalizer_idem_counterexample :
    safe_records_from_df (DFInput.list [[("x", PyVal.nan)]]) = [[("x", PyVal.nan)]] ∧
      ("x", PyVal.nan) ∈ (safe_records_from_df (DFInput.list [[("x", PyVal.nan)]])).getD 0 [] :=
  ⟨rfl, by decide⟩

/-- C5 (amended): re-normalizing any normalizer output returns it unchanged
(outputs are lists and list inputs pass through verbatim); and on every
dataframe input whose columns' cells match their declared dtypes, the
output has no NaN value, no duplicate keys, and no native datetime — a
datetime-typed field appears only as null or an ISO string.  List inputs
carry no such guarantee. -/
theorem normalizer_idem_amended :
    (∀ x : DFInput,
        safe_records_from_df (DFInput.list (safe_records_from_df x)) =
          safe_records_from_df x) ∧
    (∀ d : DF, Wf d → ∀ r ∈ safe_records_from_df (DFInput.df d),
        (r.map Prod.fst).Nodup ∧
          ∀ kv ∈ r, kv.2 ≠ PyVal.nan ∧ ∀ t, kv.2 ≠ PyVal.dt t) := by
  constructor
  · intro x; rfl
  · intro d hwf r hr
    rw [safe_records_df_eq_specNormalize] at hr
    unfold specNormalize at hr
    by_cases h0 : d.nrows = 0
    · simp [h0] at hr
    · simp only [h0, if_false] at hr
      unfold toRecords at hr
      rcases List.mem_map.mp hr with ⟨i, _, rfl⟩
      constructor
      · rw [List.map_map]
        have hkeys :
            (Prod.fst ∘ fun c : Col => (c.name, c.cells.getD i PyVal.null)) = Col.name := rfl
        rw [hkeys]
        exact (dedupColsAux_names [] _).1
      · intro kv hkv
        rcases List.mem_map.mp hkv with ⟨c, hc, rfl⟩
        have hc' := mem_dedupColsAux _ _ hc
        rcases List.mem_map.mp hc' with ⟨c0, hc0, rfl⟩
        simp only
        rcases hx : (c0.cells.map (specFillCell c0.dtype))[i]? with _ | x
        · have hnull : (c0.cells.map (specFillCell c0.dtype)).getD i PyVal.null = PyVal.null := by
            rw [List.getD_eq_getElem?_getD, hx]; rfl
          rw [hnull]
          exact ⟨by simp, fun t => by simp⟩
        · have hval : (c0.cells.map (specFillCell c0.dtype)).getD i PyVal.null = x := by
            rw [List.getD_eq_getElem?_getD, hx]; rfl
          rw [hval]
          rw [List.getElem?_map] at hx
          rcases Option.map_eq_some'.mp hx with ⟨y, hy, rfl⟩
          have hymem : y ∈ c0.cells := List.getElem?_mem hy
          exact specFillCell_ok c0.dtype y ((hwf c0 hc0).2 y hymem)

/-- C5 (witness): the amended theorem applied to the concrete dataframe
`wfDF` and the record it produces. -/
theorem normalizer_idem_amended_witness :
    (([("a", PyVal.num 0), ("b", PyVal.str ""), ("c", PyVal.str (isoformat 3))] : Record).map
        Prod.fst).Nodup ∧
      (PyVal.num 0 ≠ PyVal.nan ∧ ∀ t, PyVal.num 0 ≠ PyVal.dt t) :=
  ⟨(normalizer_idem_amended.2 wfDF (by decide)
      [("a", PyVal.num 0), ("b", PyVal.str ""), ("c", PyVal.str (isoformat 3))] (by decide)).1,
   (normalizer_idem_amended.2 wfDF (by decide)
      [("a", PyVal.num 0), ("b", PyVal.str ""), ("c", PyVal.str (isoformat 3))] (by decide)).2
      ("a", PyVal.num 0) (by decide)⟩

/-! ## Claim C1 -/

/-- C1: in the team-schedule classification, a game with status text
`"Final"` lands in the recent list and never in the upcoming list,
regardless of its timestamp; a non-Final game with a parseable timestamp
strictly in the future lands in the upcoming list; and a non-Final game
with no parseable timestamp lands in the upcoming list. -/
theorem schedule_classification (today : ℤ) (games : List Game) (g : Game)
    (hg : g ∈ games) :
    (g.statusText = "Final" → g ∈ (splitGames today (sortGames games)).2) ∧
    (g.statusText = "Final" → g ∉ (splitGames today (sortGames games)).1) ∧
    (∀ t, get_game_time g = some t → today < t → g.statusText ≠ "Final" →
      g ∈ (splitGames today (sortGames games)).1) ∧
    (get_game_time g = Option.none → g.statusText ≠ "Final" →
      g ∈ (splitGames today (sortGames games)).1) := by
  have hmem : g ∈ sortGames games := by
    simpa [sortGames] using hg
  simp only [splitGames_eq]
  refine ⟨?_, ?_, ?_, ?_⟩
  · intro hf
    exact List.mem_filter.mpr ⟨hmem, by simp [goesRecent, hf]⟩
  · intro hf hin
    have hcond := (List.mem_filter.mp hin).2
    simp [goesUpcoming, hf] at hcond
  · intro t ht hlt hnf
    exact List.mem_filter.mpr ⟨hmem, by simp [goesUpcoming, ht, hlt, hnf]⟩
  · intro ht hnf
    exact List.mem_filter.mpr ⟨hmem, by simp [goesUpcoming, ht, hnf]⟩

/-- C1 (witness): the classification of the singleton schedule holding
`finalGame` at `today = 200` puts it in recent and not in upcoming. -/
theorem schedule_classification_witness :
    finalGame ∈ (splitGames 200 (sortGames [finalGame])).2 ∧
      finalGame ∉ (splitGames 200 (sortGames [finalGame])).1 :=
  ⟨(schedule_classification 200 [finalGame] finalGame (by simp)).1 rfl,
   (schedule_classification 200 [finalGame] finalGame (by simp)).2.1 rfl⟩

/-! ## Claim C9 -/

/-- C9: a game formatted as recent has `WL = "W"` iff the requested team's
score strictly exceeds the opponent's; in every other case — equal scores
included — `WL = "L"`. -/
theorem wl_flag (team_id : ℤ) (g : Game) :
    ((format_game team_id g true).WL = some "W" ↔
      teamScore team_id g > oppScore team_id g) ∧
    ((format_game team_id g true).WL = some "L" ↔
      ¬ teamScore team_id g > oppScore team_id g) := by
  by_cases h : teamScore team_id g > oppScore team_id g <;>
    simp [format_game, h]

/-! ## Claim C10 -/

/-- C10: a game whose status is not `"Final"` and whose timestamp parses
but is not strictly in the future is placed in neither the upcoming nor
the recent list — the classification silently drops it. -/
theorem schedule_dropped (today : ℤ) (games : List Game) (g : Game) (t : ℤ)
    (h1 : get_game_time g = some t) (h2 : ¬ today < t)
    (h3 : g.statusText ≠ "Final") :
    g ∉ (splitGames today (sortGames games)).1 ∧
      g ∉ (splitGames today (sortGames games)).2 := by
  simp only [splitGames_eq]
  constructor
  · intro hin
    have hcond := (List.mem_filter.mp hin).2
    simp [goesUpcoming, h1, h2, h3] at hcond
  · intro hin
    have hcond := (List.mem_filter.mp hin).2
    simp [goesRecent, h3] at hcond

/-- C10 (witness): at `today = 200`, `liveGame` appears in neither list. -/
theorem schedule_dropped_witness :
    liveGame ∉ (splitGames 200 (sortGames [liveGame])).1 ∧
      liveGame ∉ (splitGames 200 (sortGames [liveGame])).2 :=
  schedule_dropped 200 [liveGame] liveGame 100 rfl (by norm_num) (by decide)

/-! ## Claim C6 -/

/-- C6: the recent list holds at most 5 games — the chronologically last 5
of the classified recent games — most recent first, and the upcoming list
holds at most 5 games — the chronologically first 5 of the classified
upcoming games — in ascending time order.  (`splitGames` output is in
ascending time order, so `drop (len - 5)` / `take 5` are the
chronologically last/first five.) -/
theorem schedule_windows (today team_id : ℤ) (games : List Game) :
    (api_team_schedule_core today team_id games).2.length ≤ 5 ∧
    (api_team_schedule_core today team_id games).1.length ≤ 5 ∧
    (api_team_schedule_core today team_id games).2 =
      (((splitGames today (sortGames games)).2.drop
            ((splitGames today (sortGames games)).2.length - 5)).map
          (fun g => format_game team_id g true)).reverse ∧
    (api_team_schedule_core today team_id games).1 =
      ((splitGames today (sortGames games)).1.take 5).map
        (fun g => format_game team_id g false) ∧
    ((splitGames today (sortGames games)).2.Pairwise
      (fun a b => sortKey a ≤ sortKey b)) ∧
    ((splitGames today (sortGames games)).1.Pairwise
      (fun a b => sortKey a ≤ sortKey b)) ∧
    ((api_team_schedule_core today team_id games).2.Pairwise
      (fun a b : GameData => timeKey b.GAME_DATETIME ≤ timeKey a.GAME_DATETIME)) ∧
    ((api_team_schedule_core today team_id games).1.Pairwise
      (fun a b : GameData => timeKey a.GAME_DATETIME ≤ timeKey b.GAME_DATETIME)) := by
  have hsorted := sortGames_sorted games
  have hsplit := splitGames_eq today (sortGames games)
  have hR : (splitGames today (sortGames games)).2.Pairwise
      (fun a b => sortKey a ≤ sortKey b) := by
    rw [hsplit]
    exact hsorted.filter _
  have hU : (splitGames today (sortGames games)).1.Pairwise
      (fun a b => sortKey a ≤ sortKey b) := by
    rw [hsplit]
    exact hsorted.filter _
  have hRdrop : ((splitGames today (sortGames games)).2.drop
      ((splitGames today (sortGames games)).2.length - 5)).Pairwise
      (fun a b => sortKey a ≤ sortKey b) :=
    List.Pairwise.sublist (List.drop_sublist _ _) hR
  have hUtake : ((splitGames today (sortGames games)).1.take 5).Pairwise
      (fun a b => sortKey a ≤ sortKey b) :=
    List.Pairwise.sublist (List.take_sublist _ _) hU
  refine ⟨?_, ?_, rfl, rfl, hR, hU, ?_, ?_⟩
  · simp only [api_team_schedule_core, List.length_reverse, List.length_map,
      List.length_drop]
    omega
  · simp only [api_team_schedule_core, List.length_map, List.length_take]
    omega
  · show ((((splitGames today (sortGames games)).2.drop _).map _).reverse).Pairwise _
    rw [List.pairwise_reverse]
    exact List.pairwise_map.mpr (hRdrop.imp (fun h => h))
  · show (((splitGames today (sortGames games)).1.take 5).map _).Pairwise _
    exact List.pairwise_map.mpr (hUtake.imp (fun h => h))

/-! ## Claim C8 -/

/-- C8: with the provider integration absent and the teams cache empty,
`/api/teams` returns exactly the two-element literal fallback list (the
Lakers and the Warriors), both entries carrying
`logoUrl = "/static/logo.png"`. -/
theorem teams_no_provider_fallback (now : ℚ) (c : Cache (List TeamOut))
    (getTeams : Except Unit (List TeamIn))
    (h : cache_get now c "teams" = Option.none) :
    (api_teams now c false getTeams).1 =
      (200,
        [ { id := some 1610612747, teamId := Option.none, TEAM_ID := Option.none,
            full_name := "Los Angeles Lakers", abbreviation := "LAL",
            logoUrl := "/static/logo.png" },
          { id := some 1610612744, teamId := Option.none, TEAM_ID := Option.none,
            full_name := "Golden State Warriors", abbreviation := "GSW",
            logoUrl := "/static/logo.png" } ]) ∧
      ∀ t ∈ (api_teams now c false getTeams).1.2, t.logoUrl = "/static/logo.png" := by
  have hresp : (api_teams now c false getTeams).1 = (200, sampleTeams) := by
    simp [api_teams, h]
  refine ⟨by rw [hresp]; rfl, ?_⟩
  intro t ht
  rw [hresp] at ht
  simp only [sampleTeams, List.mem_cons, List.not_mem_nil, or_false] at ht
  rcases ht with rfl | rfl <;> rfl

/-- C8 (witness): the theorem applied to the empty cache. -/
theorem teams_no_provider_fallback_witness :
    (api_teams 0 cacheEmpty false (Except.ok [])).1 =
      (200,
        [ { id := some 1610612747, teamId := Option.none, TEAM_ID := Option.none,
            full_name := "Los Angeles Lakers", abbreviation := "LAL",
            logoUrl := "/static/logo.png" },
          { id := some 1610612744, teamId := Option.none, TEAM_ID := Option.none,
            full_name := "Golden State Warriors", abbreviation := "GSW",
            logoUrl := "/static/logo.png" } ]) ∧
      ∀ t ∈ (api_teams 0 cacheEmpty false (Except.ok [])).1.2,
        t.logoUrl = "/static/logo.png" :=
  teams_no_provider_fallback 0 cacheEmpty (Except.ok []) rfl

/-! ## Claim C2 -/

/-- C2: `/api/leaders/<s>` answers 400 with `{"error": "invalid stat"}`
exactly when `s` uppercased is outside the allow-list; for every allowed
`s` it answers 200 with a JSON array of at most 25 records, whatever the
live fetch does. -/
theorem leaders_allow_list (s : String) (nba : Bool)
    (fetched : Except Unit (List JRec)) (teams : List TeamIn) :
    (((api_leaders_full s nba fetched teams).1 = 400 ∧
        (api_leaders_full s nba fetched teams).2 =
          Json.obj [("error", Json.str "invalid stat")]) ↔
      pyUpper s ∉ allowedStats) ∧
    (pyUpper s ∈ allowedStats →
      (api_leaders_full s nba fetched teams).1 = 200 ∧
        ∃ l, (api_leaders_full s nba fetched teams).2 = Json.arr l ∧ l.length ≤ 25) := by
  by_cases hstat : pyUpper s ∈ allowedStats
  · have hmain : (api_leaders_full s nba fetched teams).1 = 200 ∧
        ∃ l, (api_leaders_full s nba fetched teams).2 = Json.arr l ∧ l.length ≤ 25 := by
      unfold api_leaders_full
      simp only [if_pos hstat]
      rcases hfetch : (if nba then fetched else Except.error ()) with e | df
      · exact ⟨rfl, _, rfl, by simp [sampleLeadersFull]⟩
      · refine ⟨rfl, _, rfl, ?_⟩
        have key : ∀ d : List JRec,
            (if hasCol d (pyUpper s) = true then
                (sortByStatDesc (pyUpper s) d).take 25
              else d.take 25).length ≤ 25 := by
          intro d
          split <;> exact List.length_take_le _ _
        simp only [List.length_map]
        cases ht : teams.isEmpty <;> simp [ht, List.length_map] <;> exact key _
    refine ⟨?_, fun _ => hmain⟩
    constructor
    · intro hbad
      rw [hmain.1] at hbad
      exact absurd hbad.1 (by norm_num)
    · intro hbad
      exact absurd hstat hbad
  · refine ⟨⟨fun _ => hstat, fun _ => by simp [api_leaders_full, hstat]⟩,
      fun h => absurd h hstat⟩

/-- C2 (witness): the allowed path segment `"pts"` with the provider absent
yields a 200 and the two-record sample array. -/
theorem leaders_allow_list_witness :
    (api_leaders_full "pts" false (Except.error ()) []).1 = 200 ∧
      ∃ l, (api_leaders_full "pts" false (Except.error ()) []).2 = Json.arr l ∧
        l.length ≤ 25 :=
  (leaders_allow_list "pts" false (Except.error ()) []).2 (by decide)

/-! ## Claim C7 -/

/-- C7: at every endpoint other than `/api/leaders/<stat>` with an invalid
stat (and at `/api/leaders/<stat>` with a valid one), an exception anywhere
on the live data path is caught at the handler boundary and converted into
the endpoint's literal sample response with HTTP 200.  Every embedded
handler is a total function, so no exception propagates. -/
theorem endpoint_fallback :
    (∀ (now : ℚ) (c : Cache (List TeamOut)) (e : Unit),
        cache_get now c "teams" = Option.none →
        (api_teams now c true (Except.error e)).1 = (200, sampleTeams)) ∧
    (∀ (now : ℚ) (c : Cache Json) (e : Unit),
        cache_get now c "standings" = Option.none →
        (api_standings now c (Except.error e)).1 = (200, sampleStandings)) ∧
    (∀ (now : ℚ) (c : Cache Json) (nowIso : String) (e : Unit),
        cache_get now c "scoreboard" = Option.none →
        (api_scoreboard now c nowIso (Except.error e)).1 = (200, sampleScoreboard nowIso)) ∧
    (∀ (now : ℚ) (c : Cache Json) (e : Unit),
        cache_get now c "leaders_home" = Option.none →
        (api_leaders_home now c (Except.error e)).1 = (200, sampleLeadersHome)) ∧
    (∀ (s : String) (nba : Bool) (teams : List TeamIn) (e : Unit),
        pyUpper s ∈ allowedStats →
        api_leaders_full s nba (Except.error e) teams = (200, sampleLeadersFull)) ∧
    (∀ e : Unit, api_team_roster (Except.error e) = (200, sampleRoster)) ∧
    (∀ e : Unit, api_team_schedule (Except.error e) = (200, sampleSchedule)) ∧
    (∀ (pid : ℤ) (e : Unit),
        api_player_profile pid (Except.error e) = (200, sampleProfile pid)) ∧
    (∀ e : Unit, api_player_gamelog (Except.error e) = (200, sampleGamelog)) ∧
    (∀ e : Unit, api_game_boxscore (Except.error e) = (200, sampleBoxscore)) ∧
    (∀ e : Unit,
        api_player_accolades (Except.error e) = (200, Json.obj [("accolades", Json.arr [])])) := by
  refine ⟨?_, ?_, ?_, ?_, ?_, fun e => rfl, fun e => rfl, fun pid e => rfl,
    fun e => rfl, fun e => rfl, fun e => rfl⟩
  · intro now c e h
    simp [api_teams, h]
  · intro now c e h
    simp [api_standings, h, pyTruthy]
  · intro now c nowIso e h
    simp [api_scoreboard, h, pyTruthy]
  · intro now c e h
    simp [api_leaders_home, h, pyTruthy]
  · intro s nba teams e h
    cases nba <;> simp [api_leaders_full, h]

/-- C7 (witness): the fallback equalities instantiated at the empty cache
and a concrete error for each hypothesis-bearing conjunct. -/
theorem endpoint_fallback_witness :
    (api_teams 0 cacheEmpty true (Except.error ())).1 = (200, sampleTeams) ∧
    (api_standings 0 cacheEmpty (Except.error ())).1 = (200, sampleStandings) ∧
    (api_scoreboard 0 cacheEmpty "2025-01-01T00:00:00" (Except.error ())).1 =
      (200, sampleScoreboard "2025-01-01T00:00:00") ∧
    (api_leaders_home 0 cacheEmpty (Except.error ())).1 = (200, sampleLeadersHome) ∧
    api_leaders_full "PTS" true (Except.error ()) [] = (200, sampleLeadersFull) :=
  ⟨endpoint_fallback.1 0 cacheEmpty () rfl,
   endpoint_fallback.2.1 0 cacheEmpty () rfl,
   endpoint_fallback.2.2.1 0 cacheEmpty "2025-01-01T00:00:00" () rfl,
   endpoint_fallback.2.2.2.1 0 cacheEmpty () rfl,
   endpoint_fallback.2.2.2.2.1 "PTS" true [] () (by decide)⟩

end GameTrack
